import Mathlib

/-!
# text_display.cpp: command line, font resolution, window geometry, shape mask

A shallow embedding of `src/text_display.cpp`.

* `Config`, `printUsage`, `parseArgs` follow the source line by line; the
  C++ library calls `std::stoi` and `std::stoul(_, nullptr, 16)` are given
  as executable models of their documented behaviour.
* `main` talks to an X server.  The server is a record `XServer` of the
  answers it gives (does the display open, screen size, which descriptors
  load to which font, how wide a text is in a font); the run of `main` is
  the list of requests it issues, in program order, and how the process
  ends.
* C++ `int` is read in two ways. `windowOrigin`, `geometryOf`, `geometry`,
  `present`, `mainBody` and `main` compute on mathematical integers (`Int`),
  which is what the program computes as long as no intermediate result
  leaves the range of `int` (`geometryOfInt32_eq_geometryOf`). The
  definitions whose names end in `Int32` are the same lines with every
  arithmetic result reduced to a 32-bit two's complement `int`, so they
  also say what the compiled program does when a result overflows.
  `/` on `int` is `Int.tdiv` (truncation toward zero).
-/

namespace TextDisplay

/-! ## Configuration (lines 13-23) -/

/-- The record `Config` with the default member initialisers of the source. -/
structure Config where
  text : String := "abc"
  position : String := "top-right"
  font : String := "fixed"
  fontSize : Int := 12
  marginX : Int := 10
  marginY : Int := 20
  color : Nat := 0xFF0000
  displayTime : Int := 30
  transparent : Bool := true
  deriving DecidableEq, Repr

/-! ## Library models: `std::stoi`, `std::stoul` -/

/-- The predicate `isspace` of the C locale. -/
def isSpaceC (c : Char) : Bool :=
  c == ' ' || c == '\t' || c == '\n' || c == '\x0b' || c == '\x0c' || c == '\r'

/-- Value of a character as a digit in the given base (bases up to 16). -/
def digitVal (base : Nat) (c : Char) : Option Nat :=
  let v : Option Nat :=
    if '0' ≤ c ∧ c ≤ '9' then some (c.toNat - '0'.toNat)
    else if 'a' ≤ c ∧ c ≤ 'f' then some (c.toNat - 'a'.toNat + 10)
    else if 'A' ≤ c ∧ c ≤ 'F' then some (c.toNat - 'A'.toNat + 10)
    else none
  match v with
  | some d => if d < base then some d else none
  | none => none

/-- Longest run of digits at the front of the input: the number of digits
read and the value they denote. -/
def readDigits (base : Nat) : List Char → Nat × Nat → Nat × Nat
  | [], acc => acc
  | c :: cs, (n, v) =>
    match digitVal base c with
    | some d => readDigits base cs (n + 1, v * base + d)
    | none => (n, v)

/-- Optional sign in front of the digits: `true` when it is a minus. -/
def readSign : List Char → Bool × List Char
  | '-' :: cs => (true, cs)
  | '+' :: cs => (false, cs)
  | cs => (false, cs)

/-- Model of `std::stoi(s)`: leading white space, optional sign, decimal
digits; `none` stands for the exception thrown when there is no digit
(`std::invalid_argument`) or the value does not fit an `int`
(`std::out_of_range`). Trailing characters are ignored. -/
def stoi (s : String) : Option Int :=
  let (neg, cs) := readSign (s.toList.dropWhile isSpaceC)
  let (n, v) := readDigits 10 cs (0, 0)
  if n = 0 then none
  else
    let r : Int := if neg then -(v : Int) else (v : Int)
    if -(2 : Int) ^ 31 ≤ r ∧ r < (2 : Int) ^ 31 then some r else none

/-- Width in bits of `unsigned long` (LP64). -/
def ULONG_BITS : Nat := 64

/-- Skips a `0x` or `0X` in front of a hexadecimal digit. -/
def skipHexMark : List Char → List Char
  | '0' :: x :: c :: cs =>
    if (x == 'x' || x == 'X') && (digitVal 16 c).isSome then c :: cs
    else '0' :: x :: c :: cs
  | cs => cs

/-- Model of `std::stoul(s, nullptr, 16)`: leading white space, optional
sign, optional `0x`, hexadecimal digits; `none` stands for the exception
thrown when there is no digit or the magnitude does not fit an
`unsigned long`. A minus sign negates the value modulo `2 ^ ULONG_BITS`. -/
def stoul16 (s : String) : Option Nat :=
  let (neg, cs) := readSign (s.toList.dropWhile isSpaceC)
  let (n, v) := readDigits 16 (skipHexMark cs) (0, 0)
  if n = 0 then none
  else if 2 ^ ULONG_BITS ≤ v then none
  else some (if neg then (2 ^ ULONG_BITS - v) % 2 ^ ULONG_BITS else v)

/-! ## Command line (lines 25-70) -/

/-- The text written by `printUsage`. -/
def usageText : String :=
  "Usage: ./text_display [options]\n" ++
  "Options:\n" ++
  "  --text TEXT            Text to display (default: \"abc\")\n" ++
  "  --position POSITION    Position on screen (top-right, top-left, bottom-right, bottom-left, center) (default: top-right)\n" ++
  "  --font FONT            X11 font name (default: fixed)\n" ++
  "  --marginx PIXELS       X margin in pixels (default: 10)\n" ++
  "  --marginy PIXELS       Y margin in pixels (default: 20)\n" ++
  "  --color RRGGBB         Text color in hex RGB (default: FF0000 for red)\n" ++
  "  --time SECONDS         Display time in seconds (default: 30)\n" ++
  "  --transparent BOOL     Use transparent background (true/false) (default: true)\n" ++
  "  --help                 Show this help message\n"

/-- How `parseArgs` ends: it returns a `Config`, or it prints the usage and
calls `exit(0)`, or a numeric conversion throws. -/
inductive ParseResult where
  | config (c : Config)
  | help
  | thrown
  deriving DecidableEq, Repr

/-- The loop `for (int i = 1; i < argc; i++)` of `parseArgs`, on the
arguments from index `i` on. An option that takes a value consumes the next
argument (`argv[++i]`) when there is one (`i+1 < argc`); otherwise the
argument matches no branch and is skipped. -/
def parseLoop : List String → Config → ParseResult
  | [], config => .config config
  | [arg], config => if arg = "--help" then .help else .config config
  | arg :: val :: rest, config =>
    if arg = "--help" then .help
    else if arg = "--text" then parseLoop rest { config with text := val }
    else if arg = "--position" then parseLoop rest { config with position := val }
    else if arg = "--font" then parseLoop rest { config with font := val }
    else if arg = "--marginx" then
      match stoi val with
      | some n => parseLoop rest { config with marginX := n }
      | none => .thrown
    else if arg = "--marginy" then
      match stoi val with
      | some n => parseLoop rest { config with marginY := n }
      | none => .thrown
    else if arg = "--color" then
      match stoul16 val with
      | some n => parseLoop rest { config with color := n }
      | none => .thrown
    else if arg = "--time" then
      match stoi val with
      | some n => parseLoop rest { config with displayTime := n }
      | none => .thrown
    else if arg = "--transparent" then
      parseLoop rest
        { config with transparent := decide (val = "true" ∨ val = "1" ∨ val = "yes") }
    else parseLoop (val :: rest) config

/-- The function `parseArgs(argc, argv)`: `argv` is the whole argument
vector, program name first; the loop starts at index 1. -/
def parseArgs (argv : List String) : ParseResult :=
  parseLoop (argv.drop 1) {}

/-! ## The X server as seen by `main` -/

/-- The members of `XFontStruct` that `main` reads. -/
structure XFontStruct where
  fid : Nat
  ascent : Int
  descent : Int
  deriving DecidableEq, Repr

/-- The answers of the X server: whether `XOpenDisplay(NULL)` gives a
display, `DisplayWidth`, `DisplayHeight`, `BlackPixel`, the result of
`XLoadQueryFont` on a descriptor (`none` is the null pointer) and the result
of `XTextWidth` for a font and a text. -/
structure XServer where
  opens : Bool
  displayWidth : Int
  displayHeight : Int
  blackPixel : Nat
  loadQueryFont : String → Option XFontStruct
  textWidth : XFontStruct → String → Int

/-- The two drawables of `main`: `window` and the pixmap `shape_mask`. -/
inductive Drawable where
  | window
  | shapeMask
  deriving DecidableEq, Repr

/-- The two graphics contexts of `main`: `gc` and `shape_gc`. -/
inductive GContext where
  | gc
  | shapeGc
  deriving DecidableEq, Repr

/-- One observable action of `main`: an Xlib call with the arguments the
source passes, a line on `std::cout` or `std::cerr`, or `sleep`. -/
inductive Request where
  | openDisplay
  | createWindow (x y width height borderWidth : Int) (overrideRedirect : Bool)
      (backgroundPixel : Nat)
  | internAtom (name : String)
  | changeProperty (property type : String) (format : Nat) (value : String)
  | createGC (d : Drawable) (g : GContext)
  | setForeground (g : GContext) (pixel : Nat)
  | loadQueryFont (name : String)
  | setFont (g : GContext) (fid : Nat)
  | moveResizeWindow (x y width height : Int)
  | mapWindow
  | drawString (d : Drawable) (g : GContext) (x y : Int) (text : String) (length : Nat)
  | flush
  | createPixmap (width height : Int) (depth : Nat)
  | fillRectangle (d : Drawable) (g : GContext) (x y width height : Int)
  | shapeCombineMask (xOff yOff : Int)
  | freeGC (g : GContext)
  | freePixmap
  | sleep (seconds : Int)
  | freeFont (fid : Nat)
  | destroyWindow
  | closeDisplay
  | cout (s : String)
  | cerr (s : String)
  deriving DecidableEq, Repr

/-- How the process ends: `main` returns (or `exit` is called) with a code,
or an uncaught exception ends it. -/
inductive Status where
  | exited (code : Int)
  | terminated
  deriving DecidableEq, Repr

/-- A run of the program: what it did, in order, and how it ended. -/
structure Run where
  requests : List Request
  status : Status
  deriving DecidableEq, Repr

/-! ## Font resolution (lines 132-154) -/

/-- The string `fontWithSize` (lines 133-140): a font name without `-` is
wrapped into a wildcard XLFD that carries `fontSize`; a name with `-` is
taken as it is. -/
def fontWithSize (config : Config) : String :=
  if '-' ∉ config.font.toList then
    "-*-" ++ config.font ++ "-*-*-*-*-" ++ toString config.fontSize ++ "-*-*-*-*-*-*-*"
  else config.font

/-- Lines 142-154: load `fontWithSize`; when that gives no font, report it
and load `"fixed"`. Returns the actions taken and the font `main` goes on
with (`none`: no font at all). -/
def loadFont (X : XServer) (config : Config) : List Request × Option XFontStruct :=
  match X.loadQueryFont (fontWithSize config) with
  | some font => ([.loadQueryFont (fontWithSize config)], some font)
  | none =>
    ([.loadQueryFont (fontWithSize config),
      .cerr ("Could not load font: " ++ fontWithSize config ++ ", trying default...\n"),
      .loadQueryFont "fixed"],
     X.loadQueryFont "fixed")

/-! ## Geometry (lines 157-191) -/

/-- Lines 165-184: the pair `(window_x, window_y)`, on mathematical integers
(exact when no difference overflows; `windowOriginInt32` is the 32-bit
reading). Both start at 0 and are assigned in the branch of the placement;
no branch is taken for any other string. -/
def windowOrigin (position : String)
    (screenWidth screenHeight windowWidth windowHeight marginX marginY : Int) : Int × Int :=
  if position = "top-right" then
    (screenWidth - windowWidth - marginX, marginY)
  else if position = "top-left" then
    (marginX, marginY)
  else if position = "bottom-right" then
    (screenWidth - windowWidth - marginX, screenHeight - windowHeight - marginY)
  else if position = "bottom-left" then
    (marginX, screenHeight - windowHeight - marginY)
  else if position = "center" then
    ((screenWidth - windowWidth).tdiv 2, (screenHeight - windowHeight).tdiv 2)
  else (0, 0)

/-- The local variables of `main` that place the window and the text. -/
structure Geometry where
  windowWidth : Int
  windowHeight : Int
  windowX : Int
  windowY : Int
  textX : Int
  textY : Int
  deriving DecidableEq, Repr

/-- Lines 157-191 on the numbers they read: text width, ascent and descent
of the font, screen size, margins and placement; on mathematical integers
(exact when no intermediate result overflows; `geometryOfInt32` is the
32-bit reading). -/
def geometryOf (textWidth ascent descent screenWidth screenHeight marginX marginY : Int)
    (position : String) : Geometry :=
  let textHeight := ascent + descent
  let windowWidth := textWidth + 2 * marginX
  let windowHeight := textHeight + 2 * marginY
  let origin :=
    windowOrigin position screenWidth screenHeight windowWidth windowHeight marginX marginY
  { windowWidth := windowWidth
    windowHeight := windowHeight
    windowX := origin.1
    windowY := origin.2
    textX := marginX
    textY := marginY + ascent }

/-- Lines 157-191 of `main` for a loaded font. -/
def geometry (config : Config) (X : XServer) (font : XFontStruct) : Geometry :=
  geometryOf (X.textWidth font config.text) font.ascent font.descent
    X.displayWidth X.displayHeight config.marginX config.marginY config.position

/-! ## The body of `main` -/

/-- Lines 201-223: the shape mask, built only when `config.transparent`. -/
def shapeMaskRequests (config : Config) (font : XFontStruct) (g : Geometry) : List Request :=
  if config.transparent then
    [.createPixmap g.windowWidth g.windowHeight 1,
     .createGC .shapeMask .shapeGc,
     .setForeground .shapeGc 0,
     .fillRectangle .shapeMask .shapeGc 0 0 g.windowWidth g.windowHeight,
     .setForeground .shapeGc 1,
     .setFont .shapeGc font.fid,
     .drawString .shapeMask .shapeGc g.textX g.textY config.text config.text.utf8ByteSize,
     .shapeCombineMask 0 0,
     .freeGC .shapeGc,
     .freePixmap]
  else []

/-- Lines 155-234: everything `main` does once it has a font. -/
def present (config : Config) (X : XServer) (font : XFontStruct) : List Request :=
  let g := geometry config X font
  [.setFont .gc font.fid,
   .moveResizeWindow g.windowX g.windowY g.windowWidth g.windowHeight,
   .mapWindow,
   .drawString .window .gc g.textX g.textY config.text config.text.utf8ByteSize,
   .flush]
  ++ shapeMaskRequests config font g ++
  [.cout ("Displaying \"" ++ config.text ++ "\" for " ++ toString config.displayTime
      ++ " seconds...\n"),
   .sleep config.displayTime,
   .freeFont font.fid,
   .freeGC .gc,
   .destroyWindow,
   .closeDisplay]

/-- Lines 89-130: window creation, the stay-on-top property, the graphics
context. Both branches of the test on `config.transparent` (lines 95-103) set
the same black background. -/
def setupRequests (config : Config) (X : XServer) : List Request :=
  [.createWindow 0 0 100 50 0 true X.blackPixel,
   .internAtom "_NET_WM_STATE",
   .internAtom "_NET_WM_STATE_ABOVE",
   .changeProperty "_NET_WM_STATE" "ATOM" 32 "_NET_WM_STATE_ABOVE",
   .createGC .window .gc,
   .setForeground .gc config.color]

/-- Lines 76-236: `main` after `parseArgs` has returned `config`. -/
def mainBody (config : Config) (X : XServer) : Run :=
  if X.opens then
    match loadFont X config with
    | (loads, some font) =>
      { requests := [.openDisplay] ++ setupRequests config X ++ loads ++ present config X font
        status := .exited 0 }
    | (loads, none) =>
      { requests := [.openDisplay] ++ setupRequests config X ++ loads ++
          [.cerr "Could not load any font\n", .freeGC .gc, .destroyWindow, .closeDisplay]
        status := .exited 1 }
  else
    { requests := [.openDisplay, .cerr "Cannot open display\n"]
      status := .exited 1 }

/-- The function `main(argc, argv)` against an X server. -/
def main (argv : List String) (X : XServer) : Run :=
  match parseArgs argv with
  | .config config => mainBody config X
  | .help => { requests := [.cout usageText], status := .exited 0 }
  | .thrown => { requests := [], status := .terminated }

/-! ## The same lines on 32-bit `int` -/

/-- A value is in the range of `int`: from `-2^31` to `2^31 - 1`. -/
def fitsInt (v : Int) : Prop :=
  -2147483648 ≤ v ∧ v ≤ 2147483647

instance decidableFitsInt (v : Int) : Decidable (fitsInt v) := by
  unfold fitsInt
  exact inferInstance

/-- The `int` that holds the result of an operation whose exact value is
`v`: `v` reduced modulo `2^32` into the range of `int` (two's complement
wrap-around, as the compiled program does on signed overflow). -/
def wrapInt (v : Int) : Int :=
  (v + 2147483648) % 4294967296 - 2147483648

/-- Lines 165-184 on 32-bit `int`: the result of every `-` and `/` is an
`int`; `screen_width - window_width - config.marginX` is two subtractions,
left to right. -/
def windowOriginInt32 (position : String)
    (screenWidth screenHeight windowWidth windowHeight marginX marginY : Int) : Int × Int :=
  if position = "top-right" then
    (wrapInt (wrapInt (screenWidth - windowWidth) - marginX), marginY)
  else if position = "top-left" then
    (marginX, marginY)
  else if position = "bottom-right" then
    (wrapInt (wrapInt (screenWidth - windowWidth) - marginX),
     wrapInt (wrapInt (screenHeight - windowHeight) - marginY))
  else if position = "bottom-left" then
    (marginX, wrapInt (wrapInt (screenHeight - windowHeight) - marginY))
  else if position = "center" then
    (wrapInt ((wrapInt (screenWidth - windowWidth)).tdiv 2),
     wrapInt ((wrapInt (screenHeight - windowHeight)).tdiv 2))
  else (0, 0)

/-- Lines 157-191 on 32-bit `int`. -/
def geometryOfInt32 (textWidth ascent descent screenWidth screenHeight marginX marginY : Int)
    (position : String) : Geometry :=
  let textHeight := wrapInt (ascent + descent)
  let windowWidth := wrapInt (textWidth + wrapInt (2 * marginX))
  let windowHeight := wrapInt (textHeight + wrapInt (2 * marginY))
  let origin :=
    windowOriginInt32 position screenWidth screenHeight windowWidth windowHeight
      marginX marginY
  { windowWidth := windowWidth
    windowHeight := windowHeight
    windowX := origin.1
    windowY := origin.2
    textX := marginX
    textY := wrapInt (marginY + ascent) }

/-- Lines 157-191 of `main` for a loaded font, on 32-bit `int`. -/
def geometryInt32 (config : Config) (X : XServer) (font : XFontStruct) : Geometry :=
  geometryOfInt32 (X.textWidth font config.text) font.ascent font.descent
    X.displayWidth X.displayHeight config.marginX config.marginY config.position

/-- Lines 155-234 with the geometry computed on 32-bit `int`. -/
def presentInt32 (config : Config) (X : XServer) (font : XFontStruct) : List Request :=
  let g := geometryInt32 config X font
  [.setFont .gc font.fid,
   .moveResizeWindow g.windowX g.windowY g.windowWidth g.windowHeight,
   .mapWindow,
   .drawString .window .gc g.textX g.textY config.text config.text.utf8ByteSize,
   .flush]
  ++ shapeMaskRequests config font g ++
  [.cout ("Displaying \"" ++ config.text ++ "\" for " ++ toString config.displayTime
      ++ " seconds...\n"),
   .sleep config.displayTime,
   .freeFont font.fid,
   .freeGC .gc,
   .destroyWindow,
   .closeDisplay]

/-- Lines 76-236 with the geometry computed on 32-bit `int`. -/
def mainBodyInt32 (config : Config) (X : XServer) : Run :=
  if X.opens then
    match loadFont X config with
    | (loads, some font) =>
      { requests := [.openDisplay] ++ setupRequests config X ++ loads ++
          presentInt32 config X font
        status := .exited 0 }
    | (loads, none) =>
      { requests := [.openDisplay] ++ setupRequests config X ++ loads ++
          [.cerr "Could not load any font\n", .freeGC .gc, .destroyWindow, .closeDisplay]
        status := .exited 1 }
  else
    { requests := [.openDisplay, .cerr "Cannot open display\n"]
      status := .exited 1 }

/-- The function `main(argc, argv)` with the geometry computed on 32-bit
`int`. -/
def mainInt32 (argv : List String) (X : XServer) : Run :=
  match parseArgs argv with
  | .config config => mainBodyInt32 config X
  | .help => { requests := [.cout usageText], status := .exited 0 }
  | .thrown => { requests := [], status := .terminated }

/-! ## Sample inputs -/

/-- The five placements named in the source. -/
def validPlacements : List String :=
  ["top-right", "top-left", "bottom-right", "bottom-left", "center"]

/-- A server with a 1920x1080 screen on which only the name `"fixed"` loads,
to a font of ascent 10 and descent 4 in which every text is 30 pixels
wide. -/
def scenarioServer : XServer where
  opens := true
  displayWidth := 1920
  displayHeight := 1080
  blackPixel := 0
  loadQueryFont := fun name => if name = "fixed" then some ⟨1, 10, 4⟩ else none
  textWidth := fun _ _ => 30

/-- A server on which the wildcard descriptor built from the name `fixed`
loads to one font and the plain name `"fixed"` to another. -/
def twoFixedServer : XServer where
  opens := true
  displayWidth := 1920
  displayHeight := 1080
  blackPixel := 0
  loadQueryFont := fun name =>
    if name = "-*-fixed-*-*-*-*-12-*-*-*-*-*-*-*" then some ⟨12, 9, 3⟩
    else if name = "fixed" then some ⟨13, 11, 2⟩
    else none
  textWidth := fun font text => (font.ascent - 3) * text.length

/-! ## Auxiliary facts -/

/-- Truncating division by two, in terms of flooring division. -/
theorem tdiv_two_cases (a : Int) :
    (0 ≤ a ∧ a.tdiv 2 = a / 2) ∨ (a < 0 ∧ a.tdiv 2 = -((-a) / 2)) := by
  rcases le_or_lt 0 a with h | h
  · exact Or.inl ⟨h, Int.tdiv_eq_ediv h (by decide)⟩
  · refine Or.inr ⟨h, ?_⟩
    have h1 : (-a).tdiv 2 = (-a) / 2 := Int.tdiv_eq_ediv (by omega) (by decide)
    have h2 : (-a).tdiv 2 = -(a.tdiv 2) := Int.neg_tdiv a 2
    omega

/-- An exact result in the range of `int` is stored unchanged. -/
theorem wrapInt_of_fitsInt (v : Int) (h : fitsInt v) : wrapInt v = v := by
  unfold fitsInt at h
  unfold wrapInt
  omega

/-- Every stored result is in the range of `int`. -/
theorem fitsInt_wrapInt (v : Int) : fitsInt (wrapInt v) := by
  unfold fitsInt wrapInt
  omega

/-- Halving a value in the range of `int` stays in the range. -/
theorem fitsInt_tdiv_two (v : Int) (h : fitsInt v) : fitsInt (v.tdiv 2) := by
  unfold fitsInt at h ⊢
  rcases tdiv_two_cases v with ⟨h1, h2⟩ | ⟨h1, h2⟩ <;> rw [h2] <;> omega

/-- Without overflow the 32-bit origin is the origin on mathematical
integers: it suffices that the two differences `sw - ww`, `sh - wh` and the
two differences less the margin are in the range of `int`. -/
theorem windowOriginInt32_eq_windowOrigin (p : String) (sw sh ww wh mx my : Int)
    (hx : fitsInt (sw - ww)) (hxm : fitsInt (sw - ww - mx))
    (hy : fitsInt (sh - wh)) (hym : fitsInt (sh - wh - my)) :
    windowOriginInt32 p sw sh ww wh mx my = windowOrigin p sw sh ww wh mx my := by
  unfold windowOriginInt32 windowOrigin
  rw [wrapInt_of_fitsInt _ hx, wrapInt_of_fitsInt _ hy, wrapInt_of_fitsInt _ hxm,
    wrapInt_of_fitsInt _ hym, wrapInt_of_fitsInt _ (fitsInt_tdiv_two _ hx),
    wrapInt_of_fitsInt _ (fitsInt_tdiv_two _ hy)]

/-- Without overflow the 32-bit geometry is the geometry on mathematical
integers. -/
theorem geometryOfInt32_eq_geometryOf (tw asc desc sw sh mx my : Int) (p : String)
    (h1 : fitsInt (asc + desc)) (h2 : fitsInt (2 * mx)) (h3 : fitsInt (tw + 2 * mx))
    (h4 : fitsInt (2 * my)) (h5 : fitsInt (asc + desc + 2 * my)) (h6 : fitsInt (my + asc))
    (hx : fitsInt (sw - (tw + 2 * mx))) (hxm : fitsInt (sw - (tw + 2 * mx) - mx))
    (hy : fitsInt (sh - (asc + desc + 2 * my)))
    (hym : fitsInt (sh - (asc + desc + 2 * my) - my)) :
    geometryOfInt32 tw asc desc sw sh mx my p = geometryOf tw asc desc sw sh mx my p := by
  unfold geometryOfInt32 geometryOf
  simp only [wrapInt_of_fitsInt _ h1, wrapInt_of_fitsInt _ h2, wrapInt_of_fitsInt _ h3,
    wrapInt_of_fitsInt _ h4, wrapInt_of_fitsInt _ h5, wrapInt_of_fitsInt _ h6,
    windowOriginInt32_eq_windowOrigin p sw sh _ _ mx my hx hxm hy hym]

/-- The 32-bit run differs from the run on mathematical integers only in the
geometry: where the two geometries agree, so do the runs. -/
theorem mainBodyInt32_eq_mainBody (config : Config) (X : XServer)
    (h : ∀ font, geometryInt32 config X font = geometry config X font) :
    mainBodyInt32 config X = mainBody config X := by
  unfold mainBodyInt32 mainBody presentInt32 present
  simp only [h]

/-- The 32-bit reading on an overflowing input: `--marginx 1073741824` with
a text 30 wide on a 1920x1080 screen gives the width `-2147483618` and the
origin `(1073743714, 20)`. -/
theorem geometryOfInt32_wraps :
    (geometryOfInt32 30 10 4 1920 1080 1073741824 20 "top-right").windowWidth =
      -2147483618 ∧
    (geometryOfInt32 30 10 4 1920 1080 1073741824 20 "top-right").windowX = 1073743714 ∧
    (geometryOfInt32 30 10 4 1920 1080 1073741824 20 "top-right").windowY = 20 := by
  decide

/-! ## Window size and origin -/

/-- C1: for every text width, ascent, descent and margins (the margins need
not even be non-negative), the window size computed in `main` is
`textWidth + 2*marginX` by `(ascent + descent) + 2*marginY`, whatever the
placement string and the screen size are; in `main` the text width is that
of `config.text` in the loaded font and the margins are those of `config`. -/
theorem window_size_exact
    (textWidth ascent descent screenWidth screenHeight marginX marginY : Int)
    (position : String) (config : Config) (X : XServer) (font : XFontStruct) :
    (geometryOf textWidth ascent descent screenWidth screenHeight marginX marginY
        position).windowWidth = textWidth + 2 * marginX ∧
    (geometryOf textWidth ascent descent screenWidth screenHeight marginX marginY
        position).windowHeight = (ascent + descent) + 2 * marginY ∧
    (geometry config X font).windowWidth =
      X.textWidth font config.text + 2 * config.marginX ∧
    (geometry config X font).windowHeight =
      (font.ascent + font.descent) + 2 * config.marginY := by
  exact ⟨rfl, rfl, rfl, rfl⟩

/-- C2, as stated, fails: `--marginx 1000000000` with a text 30 wide on a
1920x1080 screen gives a window 2000000030 wide (no overflow so far), and
for `top-right` the value `1920 - 2000000030 - 1000000000 = -2999998110` of
the piecewise definition is not the origin computed in `main`: the second
subtraction overflows `int` and the window is moved to x = 1294969186. -/
theorem window_origin_overflow_counterexample :
    (geometryOfInt32 30 10 4 1920 1080 1000000000 20 "top-right").windowWidth =
      2000000030 ∧
    windowOriginInt32 "top-right" 1920 1080 2000000030 54 1000000000 20 ≠
      (1920 - 2000000030 - 1000000000, 20) ∧
    windowOriginInt32 "top-right" 1920 1080 2000000030 54 1000000000 20 =
      (1294969186, 20) ∧
    .moveResizeWindow 1294969186 20 2000000030 54 ∈
      (mainInt32 ["text_display", "--marginx", "1000000000"] scenarioServer).requests := by
  decide

/-- C2, amended: the window origin computed in `main` on 32-bit `int` follows
the placement as long as the differences that the placement computes stay
in the range of `int`: `top-right` gives `(sw - ww - mx, my)`, `top-left`
gives `(mx, my)`, `bottom-right` gives `(sw - ww - mx, sh - wh - my)`,
`bottom-left` gives `(mx, sh - wh - my)`, `center` gives the halves of
`sw - ww` and `sh - wh` with truncating division, and every other string
gives `(0, 0)`. In every run that opens the display and finds a font,
whatever the placement string is, the run ends with exit code 0 and its one
`XMoveResizeWindow` request carries this origin for the computed window
size. -/
theorem window_origin_by_placement (p : String) (sw sh ww wh mx my : Int)
    (config : Config) (X : XServer) (font : XFontStruct) :
    (fitsInt (sw - ww) → fitsInt (sw - ww - mx) →
      windowOriginInt32 "top-right" sw sh ww wh mx my = (sw - ww - mx, my)) ∧
    windowOriginInt32 "top-left" sw sh ww wh mx my = (mx, my) ∧
    (fitsInt (sw - ww) → fitsInt (sw - ww - mx) →
      fitsInt (sh - wh) → fitsInt (sh - wh - my) →
      windowOriginInt32 "bottom-right" sw sh ww wh mx my =
        (sw - ww - mx, sh - wh - my)) ∧
    (fitsInt (sh - wh) → fitsInt (sh - wh - my) →
      windowOriginInt32 "bottom-left" sw sh ww wh mx my = (mx, sh - wh - my)) ∧
    (fitsInt (sw - ww) → fitsInt (sh - wh) →
      windowOriginInt32 "center" sw sh ww wh mx my =
        ((sw - ww).tdiv 2, (sh - wh).tdiv 2)) ∧
    (p ∉ validPlacements → windowOriginInt32 p sw sh ww wh mx my = (0, 0)) ∧
    (X.opens = true → (loadFont X config).2 = some font →
      (mainBodyInt32 config X).status = .exited 0 ∧
      ∃ x y,
        (x, y) = windowOriginInt32 config.position X.displayWidth X.displayHeight
          (geometryInt32 config X font).windowWidth
          (geometryInt32 config X font).windowHeight config.marginX config.marginY ∧
        .moveResizeWindow x y (geometryInt32 config X font).windowWidth
          (geometryInt32 config X font).windowHeight ∈ (mainBodyInt32 config X).requests ∧
        ∀ x1 y1 w1 h1, .moveResizeWindow x1 y1 w1 h1 ∈ (mainBodyInt32 config X).requests →
          x1 = x ∧ y1 = y ∧ w1 = (geometryInt32 config X font).windowWidth ∧
          h1 = (geometryInt32 config X font).windowHeight) := by
  refine ⟨?_, ?_, ?_, ?_, ?_, ?_, ?_⟩
  · intro hx hxm
    simp [windowOriginInt32, wrapInt_of_fitsInt _ hx, wrapInt_of_fitsInt _ hxm]
  · simp [windowOriginInt32]
  · intro hx hxm hy hym
    simp [windowOriginInt32, wrapInt_of_fitsInt _ hx, wrapInt_of_fitsInt _ hxm,
      wrapInt_of_fitsInt _ hy, wrapInt_of_fitsInt _ hym]
  · intro hy hym
    simp [windowOriginInt32, wrapInt_of_fitsInt _ hy, wrapInt_of_fitsInt _ hym]
  · intro hx hy
    simp [windowOriginInt32, wrapInt_of_fitsInt _ hx, wrapInt_of_fitsInt _ hy,
      wrapInt_of_fitsInt _ (fitsInt_tdiv_two _ hx),
      wrapInt_of_fitsInt _ (fitsInt_tdiv_two _ hy)]
  · intro hp
    simp only [validPlacements, List.mem_cons, List.mem_singleton, List.not_mem_nil,
      or_false, not_or] at hp
    obtain ⟨h1, h2, h3, h4, h5⟩ := hp
    simp [windowOriginInt32, h1, h2, h3, h4, h5]
  · intro hopen hfont
    have hsplit : loadFont X config = ((loadFont X config).1, some font) := by
      rw [← hfont]
    have hloads : ∀ r ∈ (loadFont X config).1,
        (∃ name, r = .loadQueryFont name) ∨ (∃ msg, r = .cerr msg) := by
      intro r hr
      unfold loadFont at hr
      split at hr <;> simp at hr
      · exact Or.inl ⟨_, hr⟩
      · rcases hr with hr | hr | hr
        · exact Or.inl ⟨_, hr⟩
        · exact Or.inr ⟨_, hr⟩
        · exact Or.inl ⟨_, hr⟩
    have hrun : mainBodyInt32 config X =
        { requests := [.openDisplay] ++ setupRequests config X ++ (loadFont X config).1 ++
            presentInt32 config X font
          status := .exited 0 } := by
      unfold mainBodyInt32
      rw [if_pos hopen, hsplit]
    refine ⟨by rw [hrun], (geometryInt32 config X font).windowX,
      (geometryInt32 config X font).windowY, rfl, ?_, ?_⟩
    · rw [hrun]
      simp [presentInt32]
    · intro x1 y1 w1 h1 hr
      rw [hrun] at hr
      simp only [List.mem_append] at hr
      rcases hr with ((hr | hr) | hr) | hr
      · simp at hr
      · simp [setupRequests] at hr
      · rcases hloads _ hr with ⟨n, hn⟩ | ⟨m, hm⟩
        · exact absurd hn (by simp)
        · exact absurd hm (by simp)
      · simp only [presentInt32, shapeMaskRequests] at hr
        split at hr <;> simp at hr <;> exact hr

/-- Witness for the amended C2: a 50x54 window with margins 10 and 20 on a
1920x1080 screen, where nothing overflows, and the placement `"diagonal"`
in a run on a server where `"fixed"` loads. -/
theorem window_origin_by_placement_witness :
    windowOriginInt32 "top-right" 1920 1080 50 54 10 20 = (1860, 20) ∧
    windowOriginInt32 "bottom-right" 1920 1080 50 54 10 20 = (1860, 1006) ∧
    windowOriginInt32 "bottom-left" 1920 1080 50 54 10 20 = (10, 1006) ∧
    windowOriginInt32 "center" 1920 1080 50 54 10 20 = (935, 513) ∧
    "diagonal" ∉ validPlacements ∧
    windowOriginInt32 "diagonal" 1920 1080 50 54 10 20 = (0, 0) ∧
    (mainBodyInt32 { position := "diagonal" } scenarioServer).status = .exited 0 ∧
    (∀ x1 y1 w1 h1, .moveResizeWindow x1 y1 w1 h1 ∈
        (mainBodyInt32 { position := "diagonal" } scenarioServer).requests →
      x1 = 0 ∧ y1 = 0 ∧ w1 = 50 ∧ h1 = 54) :=
  have hp : "diagonal" ∉ validPlacements := by decide
  have h := window_origin_by_placement "diagonal" 1920 1080 50 54 10 20
    { position := "diagonal" } scenarioServer ⟨1, 10, 4⟩
  have hrun := h.2.2.2.2.2.2 rfl (by decide)
  ⟨h.1 (by decide) (by decide),
   h.2.2.1 (by decide) (by decide) (by decide) (by decide),
   h.2.2.2.1 (by decide) (by decide),
   h.2.2.2.2.1 (by decide) (by decide),
   hp,
   h.2.2.2.2.2.1 hp,
   hrun.1,
   by
     obtain ⟨x, y, hxy, _, hall⟩ := hrun.2
     have hxy0 : (x, y) = (0, 0) := by rw [hxy]; decide
     have hx0 : x = 0 := congrArg Prod.fst hxy0
     have hy0 : y = 0 := congrArg Prod.snd hxy0
     intro x1 y1 w1 h1 hr
     have hr2 := hall x1 y1 w1 h1 hr
     rw [hx0, hy0] at hr2
     refine ⟨hr2.1, hr2.2.1, ?_, ?_⟩
     · rw [hr2.2.2.1]; decide
     · rw [hr2.2.2.2]; decide⟩

/-- C3, as stated, fails: text width 80 and margins 10 and 20 give a 100x54
window, which fits a 100x100 screen, yet `top-right` puts it at x = -10. -/
theorem onscreen_counterexample :
    (0 : Int) ≤ 10 ∧ (0 : Int) ≤ 20 ∧
    "top-right" ∈ validPlacements ∧
    (geometryOf 80 10 4 100 100 10 20 "top-right").windowWidth ≤ 100 ∧
    (geometryOf 80 10 4 100 100 10 20 "top-right").windowHeight ≤ 100 ∧
    ¬ (0 ≤ (geometryOf 80 10 4 100 100 10 20 "top-right").windowX ∧
       (geometryOf 80 10 4 100 100 10 20 "top-right").windowX +
         (geometryOf 80 10 4 100 100 10 20 "top-right").windowWidth ≤ 100 ∧
       0 ≤ (geometryOf 80 10 4 100 100 10 20 "top-right").windowY ∧
       (geometryOf 80 10 4 100 100 10 20 "top-right").windowY +
         (geometryOf 80 10 4 100 100 10 20 "top-right").windowHeight ≤ 100) := by
  decide

/-- C3, amended: for each of the five placements, non-negative margins and a
window no larger than the screen, the window lies fully on the screen
provided that, for the four corner placements, the window together with one
margin still fits the screen on each axis (`center` needs nothing more). -/
theorem onscreen_within_margins (p : String) (sw sh ww wh mx my : Int)
    (hp : p ∈ validPlacements) (hmx : 0 ≤ mx) (hmy : 0 ≤ my)
    (hw : ww ≤ sw) (hh : wh ≤ sh)
    (hfit : p ≠ "center" → ww + mx ≤ sw ∧ wh + my ≤ sh) :
    0 ≤ (windowOrigin p sw sh ww wh mx my).1 ∧
    (windowOrigin p sw sh ww wh mx my).1 + ww ≤ sw ∧
    0 ≤ (windowOrigin p sw sh ww wh mx my).2 ∧
    (windowOrigin p sw sh ww wh mx my).2 + wh ≤ sh := by
  simp only [validPlacements, List.mem_cons, List.mem_singleton, List.not_mem_nil,
    or_false] at hp
  rcases hp with rfl | rfl | rfl | rfl | rfl
  · obtain ⟨h1, h2⟩ := hfit (by decide)
    simp only [windowOrigin, if_true]
    omega
  · obtain ⟨h1, h2⟩ := hfit (by decide)
    simp [windowOrigin]
    omega
  · obtain ⟨h1, h2⟩ := hfit (by decide)
    simp [windowOrigin]
    omega
  · obtain ⟨h1, h2⟩ := hfit (by decide)
    simp [windowOrigin]
    omega
  · have hx : (sw - ww).tdiv 2 = (sw - ww) / 2 := Int.tdiv_eq_ediv (by omega) (by decide)
    have hy : (sh - wh).tdiv 2 = (sh - wh) / 2 := Int.tdiv_eq_ediv (by omega) (by decide)
    simp [windowOrigin, hx, hy]
    omega

/-- Witness for the amended C3: a 50x54 window, margins 10 and 20, top right
of a 1920x1080 screen. -/
theorem onscreen_within_margins_witness :
    0 ≤ (windowOrigin "top-right" 1920 1080 50 54 10 20).1 ∧
    (windowOrigin "top-right" 1920 1080 50 54 10 20).1 + 50 ≤ 1920 ∧
    0 ≤ (windowOrigin "top-right" 1920 1080 50 54 10 20).2 ∧
    (windowOrigin "top-right" 1920 1080 50 54 10 20).2 + 54 ≤ 1080 :=
  onscreen_within_margins "top-right" 1920 1080 50 54 10 20 (by decide) (by decide)
    (by decide) (by decide) (by decide) (fun _ => ⟨by decide, by decide⟩)

/-- C4: for `center`, the centre of the window (origin plus half the window
size) is within one pixel of the centre of the screen on both axes, all
halves taken with truncating division; this holds for all sizes, positive or
not. -/
theorem center_within_one_pixel (sw sh ww wh mx my : Int) :
    |((windowOrigin "center" sw sh ww wh mx my).1 + ww.tdiv 2) - sw.tdiv 2| ≤ 1 ∧
    |((windowOrigin "center" sw sh ww wh mx my).2 + wh.tdiv 2) - sh.tdiv 2| ≤ 1 := by
  have hc : windowOrigin "center" sw sh ww wh mx my =
      ((sw - ww).tdiv 2, (sh - wh).tdiv 2) := by simp [windowOrigin]
  rw [hc]
  simp only [abs_le]
  rcases tdiv_two_cases (sw - ww) with ⟨a1, a2⟩ | ⟨a1, a2⟩ <;>
  rcases tdiv_two_cases ww with ⟨b1, b2⟩ | ⟨b1, b2⟩ <;>
  rcases tdiv_two_cases sw with ⟨c1, c2⟩ | ⟨c1, c2⟩ <;>
  rcases tdiv_two_cases (sh - wh) with ⟨d1, d2⟩ | ⟨d1, d2⟩ <;>
  rcases tdiv_two_cases wh with ⟨e1, e2⟩ | ⟨e1, e2⟩ <;>
  rcases tdiv_two_cases sh with ⟨f1, f2⟩ | ⟨f1, f2⟩ <;>
  (rw [a2, b2, c2, d2, e2, f2]; omega)

/-- C5, as stated, fails: with text width 30, ascent 10, descent 4, margins
10 and 20, screen 1920x1080 and placement `top-right`, the window height
computed in `main` is not 48. -/
theorem scenario_top_right_counterexample :
    ¬ ((geometryOf 30 10 4 1920 1080 10 20 "top-right").windowWidth = 50 ∧
       (geometryOf 30 10 4 1920 1080 10 20 "top-right").windowHeight = 48 ∧
       ((geometryOf 30 10 4 1920 1080 10 20 "top-right").windowX,
        (geometryOf 30 10 4 1920 1080 10 20 "top-right").windowY) = (1860, 20)) := by
  decide

/-- C5, amended (scenario 1): text width 30, ascent 10, descent 4, margins 10
and 20, screen 1920x1080, placement `top-right`: the window is 50 wide and
54 high (14 for the font plus twice 20) at `(1860, 20)`, and `main` started
without options on such a server moves its window there. -/
theorem scenario_top_right :
    (geometryOf 30 10 4 1920 1080 10 20 "top-right").windowWidth = 50 ∧
    (geometryOf 30 10 4 1920 1080 10 20 "top-right").windowHeight = 54 ∧
    ((geometryOf 30 10 4 1920 1080 10 20 "top-right").windowX,
     (geometryOf 30 10 4 1920 1080 10 20 "top-right").windowY) = (1860, 20) ∧
    .moveResizeWindow 1860 20 50 54 ∈ (main ["text_display"] scenarioServer).requests := by
  decide

/-- C6, as stated, fails: the same numbers with placement `center` do not
give the origin `(935, 516)`. -/
theorem scenario_center_counterexample :
    ((geometryOf 30 10 4 1920 1080 10 20 "center").windowX,
     (geometryOf 30 10 4 1920 1080 10 20 "center").windowY) ≠ (935, 516) := by
  decide

/-- C6, amended (scenario 2): the same numbers with placement `center`: the
origin is `(935, 513)`, half of 1920 - 50 and half of 1080 - 54, and `main`
started with `--position center` on such a server moves its window there. -/
theorem scenario_center :
    ((geometryOf 30 10 4 1920 1080 10 20 "center").windowX,
     (geometryOf 30 10 4 1920 1080 10 20 "center").windowY) = (935, 513) ∧
    .moveResizeWindow 935 513 50 54 ∈
      (main ["text_display", "--position", "center"] scenarioServer).requests := by
  decide

/-! ## Font fallback -/

/-- C7, as stated, fails: on a server where the wildcard descriptor built
from `fixed` and the plain name `"fixed"` load to different fonts, the first
attempt for `nosuchfont` fails and `main` goes on with the font of the plain
name, while an explicit request for `fixed` goes on with the font of the
wildcard descriptor. -/
theorem font_fallback_counterexample :
    twoFixedServer.loadQueryFont (fontWithSize { font := "nosuchfont" }) = none ∧
    (loadFont twoFixedServer { font := "nosuchfont" }).2 ≠
      (loadFont twoFixedServer { font := "fixed" }).2 := by
  decide

/-- C7, amended: when the first attempt for the configured font fails, `main`
goes on with whatever the loader gives for the plain name `"fixed"`; this is
the font `main` goes on with when `fixed` is the configured font exactly
when the wildcard descriptor built from `fixed` does not load or loads to
that same font. -/
theorem font_fallback (X : XServer) (config : Config)
    (hfail : X.loadQueryFont (fontWithSize config) = none) :
    (loadFont X config).2 = X.loadQueryFont "fixed" ∧
    ((loadFont X config).2 = (loadFont X { config with font := "fixed" }).2 ↔
      (X.loadQueryFont (fontWithSize { config with font := "fixed" }) = none ∨
       X.loadQueryFont (fontWithSize { config with font := "fixed" }) =
         X.loadQueryFont "fixed")) := by
  have h1 : (loadFont X config).2 = X.loadQueryFont "fixed" := by
    simp [loadFont, hfail]
  refine ⟨h1, ?_⟩
  rw [h1]
  cases hw : X.loadQueryFont (fontWithSize { config with font := "fixed" }) with
  | none => simp [loadFont, hw]
  | some font =>
    simp only [loadFont, hw]
    constructor
    · intro h
      exact Or.inr h.symm
    · intro h
      rcases h with h | h
      · exact absurd h (by simp)
      · exact h.symm

/-- Witness for the amended C7: the font `Arial` on a server where only the
plain name `"fixed"` loads. -/
theorem font_fallback_witness :
    scenarioServer.loadQueryFont (fontWithSize { font := "Arial" }) = none ∧
    (loadFont scenarioServer { font := "Arial" }).2 = scenarioServer.loadQueryFont "fixed" ∧
    (loadFont scenarioServer { font := "Arial" }).2 =
      (loadFont scenarioServer { font := "fixed" }).2 :=
  have hfail : scenarioServer.loadQueryFont (fontWithSize { font := "Arial" }) = none := by
    decide
  have h := font_fallback scenarioServer { font := "Arial" } hfail
  ⟨hfail, h.1, h.2.2 (Or.inl (by decide))⟩

/-- C9: in a run that gets as far as computing the window geometry (the
display opens and a font is found), the 1-bit pixmap for the shape mask is
created exactly when `config.transparent` holds. When it holds, the run
contains, in this order, the creation of a pixmap of the window's width and
height and depth 1, the clearing of the rectangle of that width and height
at `(0, 0)` with foreground 0, the drawing of the text with foreground 1 and
the application of the mask; the width and height are those given to
`XMoveResizeWindow`. When it does not hold, no pixmap is created, nothing is
drawn into one and no mask is applied. -/
theorem shape_mask_iff_transparent (config : Config) (X : XServer) (font : XFontStruct)
    (hopen : X.opens = true) (hfont : (loadFont X config).2 = some font) :
    ((∃ w h d, .createPixmap w h d ∈ (mainBody config X).requests) ↔
      config.transparent = true) ∧
    (∀ x y w h, .moveResizeWindow x y w h ∈ (mainBody config X).requests →
      w = (geometry config X font).windowWidth ∧
      h = (geometry config X font).windowHeight) ∧
    (∀ w h d, .createPixmap w h d ∈ (mainBody config X).requests →
      w = (geometry config X font).windowWidth ∧
      h = (geometry config X font).windowHeight ∧ d = 1 ∧
      ∃ x y, .moveResizeWindow x y w h ∈ (mainBody config X).requests) ∧
    (∀ d g x y w h, .fillRectangle d g x y w h ∈ (mainBody config X).requests →
      d = .shapeMask ∧ x = 0 ∧ y = 0 ∧
      w = (geometry config X font).windowWidth ∧
      h = (geometry config X font).windowHeight) ∧
    (config.transparent = true →
      ∃ before after, (mainBody config X).requests =
        before ++
        [.createPixmap (geometry config X font).windowWidth
           (geometry config X font).windowHeight 1,
         .createGC .shapeMask .shapeGc,
         .setForeground .shapeGc 0,
         .fillRectangle .shapeMask .shapeGc 0 0 (geometry config X font).windowWidth
           (geometry config X font).windowHeight,
         .setForeground .shapeGc 1,
         .setFont .shapeGc font.fid,
         .drawString .shapeMask .shapeGc (geometry config X font).textX
           (geometry config X font).textY config.text config.text.utf8ByteSize,
         .shapeCombineMask 0 0,
         .freeGC .shapeGc,
         .freePixmap] ++ after) ∧
    (config.transparent = false →
      (∀ w h d, .createPixmap w h d ∉ (mainBody config X).requests) ∧
      (∀ d g x y w h, .fillRectangle d g x y w h ∉ (mainBody config X).requests) ∧
      (∀ g x y t n, .drawString .shapeMask g x y t n ∉ (mainBody config X).requests) ∧
      (∀ x y, .shapeCombineMask x y ∉ (mainBody config X).requests)) := by
  have hsplit : loadFont X config = ((loadFont X config).1, some font) := by
    rw [← hfont]
  have hloads : ∀ r ∈ (loadFont X config).1,
      (∃ name, r = .loadQueryFont name) ∨ (∃ msg, r = .cerr msg) := by
    intro r hr
    unfold loadFont at hr
    split at hr <;> simp at hr
    · exact Or.inl ⟨_, hr⟩
    · rcases hr with hr | hr | hr
      · exact Or.inl ⟨_, hr⟩
      · exact Or.inr ⟨_, hr⟩
      · exact Or.inl ⟨_, hr⟩
  have hrun : (mainBody config X).requests =
      [.openDisplay] ++ setupRequests config X ++ (loadFont X config).1 ++
        present config X font := by
    unfold mainBody
    rw [if_pos hopen, hsplit]
  have hmem : ∀ r, r ∈ (mainBody config X).requests →
      (∀ name, r ≠ .loadQueryFont name) → (∀ msg, r ≠ .cerr msg) →
      r ∈ [Request.openDisplay] ++ setupRequests config X ++ present config X font := by
    intro r hr h1 h2
    rw [hrun] at hr
    simp only [List.mem_append] at hr ⊢
    rcases hr with ((hr | hr) | hr) | hr
    · exact Or.inl (Or.inl hr)
    · exact Or.inl (Or.inr hr)
    · rcases hloads r hr with ⟨n, hn⟩ | ⟨m, hm⟩
      · exact absurd hn (h1 n)
      · exact absurd hm (h2 m)
    · exact Or.inr hr
  cases ht : config.transparent with
  | true =>
    refine ⟨?_, ?_, ?_, ?_, ?_, ?_⟩
    · simp only [iff_true]
      exact ⟨(geometry config X font).windowWidth, (geometry config X font).windowHeight, 1, by
        rw [hrun]
        simp [present, shapeMaskRequests, ht]⟩
    · intro x y w h hr
      have := hmem _ hr (by simp) (by simp)
      simp [setupRequests, present, shapeMaskRequests, ht] at this
      exact ⟨this.2.2.1, this.2.2.2⟩
    · intro w h d hr
      have := hmem _ hr (by simp) (by simp)
      simp [setupRequests, present, shapeMaskRequests, ht] at this
      refine ⟨this.1, this.2.1, this.2.2, (geometry config X font).windowX,
        (geometry config X font).windowY, ?_⟩
      rw [hrun, this.1, this.2.1]
      simp [present]
    · intro d g x y w h hr
      have := hmem _ hr (by simp) (by simp)
      simp [setupRequests, present, shapeMaskRequests, ht] at this
      exact ⟨this.1, this.2.2.1, this.2.2.2.1, this.2.2.2.2.1, this.2.2.2.2.2⟩
    · intro _
      refine ⟨[.openDisplay] ++ setupRequests config X ++ (loadFont X config).1 ++
        [.setFont .gc font.fid,
         .moveResizeWindow (geometry config X font).windowX (geometry config X font).windowY
           (geometry config X font).windowWidth (geometry config X font).windowHeight,
         .mapWindow,
         .drawString .window .gc (geometry config X font).textX
           (geometry config X font).textY config.text config.text.utf8ByteSize,
         .flush],
        [.cout ("Displaying \"" ++ config.text ++ "\" for " ++ toString config.displayTime
            ++ " seconds...\n"),
         .sleep config.displayTime,
         .freeFont font.fid,
         .freeGC .gc,
         .destroyWindow,
         .closeDisplay], ?_⟩
      rw [hrun]
      simp only [present, shapeMaskRequests, ht, if_true, List.append_assoc]
    · intro h
      exact absurd h (by simp)
  | false =>
    refine ⟨?_, ?_, ?_, ?_, ?_, ?_⟩
    · simp only [Bool.false_eq_true, iff_false, not_exists]
      intro w h d hr
      have := hmem _ hr (by simp) (by simp)
      simp [setupRequests, present, shapeMaskRequests, ht] at this
    · intro x y w h hr
      have := hmem _ hr (by simp) (by simp)
      simp [setupRequests, present, shapeMaskRequests, ht] at this
      exact ⟨this.2.2.1, this.2.2.2⟩
    · intro w h d hr
      have := hmem _ hr (by simp) (by simp)
      simp [setupRequests, present, shapeMaskRequests, ht] at this
    · intro d g x y w h hr
      have := hmem _ hr (by simp) (by simp)
      simp [setupRequests, present, shapeMaskRequests, ht] at this
    · intro h
      exact absurd h (by simp)
    · intro _
      refine ⟨?_, ?_, ?_, ?_⟩
      · intro w h d hr
        have := hmem _ hr (by simp) (by simp)
        simp [setupRequests, present, shapeMaskRequests, ht] at this
      · intro d g x y w h hr
        have := hmem _ hr (by simp) (by simp)
        simp [setupRequests, present, shapeMaskRequests, ht] at this
      · intro g x y t n hr
        have := hmem _ hr (by simp) (by simp)
        simp [setupRequests, present, shapeMaskRequests, ht] at this
      · intro x y hr
        have := hmem _ hr (by simp) (by simp)
        simp [setupRequests, present, shapeMaskRequests, ht] at this

/-- Witness for C9: the default configuration (transparent) and the same
with `transparent := false`, on a server where `"fixed"` loads. -/
theorem shape_mask_iff_transparent_witness :
    scenarioServer.opens = true ∧
    (loadFont scenarioServer {}).2 = some ⟨1, 10, 4⟩ ∧
    (∃ w h d, .createPixmap w h d ∈ (mainBody {} scenarioServer).requests) ∧
    (∀ w h d, .createPixmap w h d ∈ (mainBody {} scenarioServer).requests →
      w = 50 ∧ h = 54 ∧ d = 1 ∧
      ∃ x y, .moveResizeWindow x y w h ∈ (mainBody {} scenarioServer).requests) ∧
    (∀ w h d, .createPixmap w h d ∉
      (mainBody { transparent := false } scenarioServer).requests) :=
  have hfont : (loadFont scenarioServer {}).2 = some ⟨1, 10, 4⟩ := by decide
  have hfont2 : (loadFont scenarioServer { transparent := false }).2 = some ⟨1, 10, 4⟩ := by
    decide
  have h := shape_mask_iff_transparent {} scenarioServer ⟨1, 10, 4⟩ rfl hfont
  ⟨rfl, hfont, h.1.mpr rfl, h.2.2.1,
   (shape_mask_iff_transparent { transparent := false } scenarioServer ⟨1, 10, 4⟩ rfl
      hfont2).2.2.2.2.2 rfl |>.1⟩

/-! ## The flag `--transparent` -/

/-- The loop of `parseArgs` changes `transparent` only at an argument
`--transparent`. -/
theorem parseLoop_keeps_transparent (n : Nat) :
    ∀ (args : List String) (c0 c : Config), args.length ≤ n →
      "--transparent" ∉ args → parseLoop args c0 = .config c →
      c.transparent = c0.transparent := by
  induction n with
  | zero =>
    intro args c0 c hlen _ hrun
    have : args = [] := List.length_eq_zero.mp (Nat.le_zero.mp hlen)
    subst this
    simp [parseLoop] at hrun
    rw [← hrun]
  | succ n ih =>
    intro args c0 c hlen hno hrun
    match args, hlen, hno, hrun with
    | [], _, _, hrun =>
      simp [parseLoop] at hrun
      rw [← hrun]
    | [arg], _, _, hrun =>
      simp only [parseLoop] at hrun
      split at hrun
      · exact absurd hrun (by simp)
      · simp at hrun
        rw [← hrun]
    | arg :: val :: rest, hlen, hno, hrun =>
      simp only [List.mem_cons, not_or] at hno
      obtain ⟨harg, hval, hrest⟩ := hno
      have hlen1 : rest.length ≤ n := by
        simp only [List.length_cons] at hlen
        omega
      have hlen2 : (val :: rest).length ≤ n := by
        simp only [List.length_cons] at hlen ⊢
        omega
      have hno2 : "--transparent" ∉ val :: rest := by
        simp only [List.mem_cons, not_or]
        exact ⟨hval, hrest⟩
      rw [parseLoop] at hrun
      by_cases h1 : arg = "--help"
      · rw [if_pos h1] at hrun
        exact absurd hrun (by simp)
      rw [if_neg h1] at hrun
      by_cases h2 : arg = "--text"
      · rw [if_pos h2] at hrun
        exact ih rest { c0 with text := val } c hlen1 hrest hrun
      rw [if_neg h2] at hrun
      by_cases h3 : arg = "--position"
      · rw [if_pos h3] at hrun
        exact ih rest { c0 with position := val } c hlen1 hrest hrun
      rw [if_neg h3] at hrun
      by_cases h4 : arg = "--font"
      · rw [if_pos h4] at hrun
        exact ih rest { c0 with font := val } c hlen1 hrest hrun
      rw [if_neg h4] at hrun
      by_cases h5 : arg = "--marginx"
      · rw [if_pos h5] at hrun
        cases hs : stoi val with
        | none =>
          rw [hs] at hrun
          exact absurd hrun (by simp)
        | some m =>
          rw [hs] at hrun
          exact ih rest { c0 with marginX := m } c hlen1 hrest hrun
      rw [if_neg h5] at hrun
      by_cases h6 : arg = "--marginy"
      · rw [if_pos h6] at hrun
        cases hs : stoi val with
        | none =>
          rw [hs] at hrun
          exact absurd hrun (by simp)
        | some m =>
          rw [hs] at hrun
          exact ih rest { c0 with marginY := m } c hlen1 hrest hrun
      rw [if_neg h6] at hrun
      by_cases h7 : arg = "--color"
      · rw [if_pos h7] at hrun
        cases hs : stoul16 val with
        | none =>
          rw [hs] at hrun
          exact absurd hrun (by simp)
        | some m =>
          rw [hs] at hrun
          exact ih rest { c0 with color := m } c hlen1 hrest hrun
      rw [if_neg h7] at hrun
      by_cases h8 : arg = "--time"
      · rw [if_pos h8] at hrun
        cases hs : stoi val with
        | none =>
          rw [hs] at hrun
          exact absurd hrun (by simp)
        | some m =>
          rw [hs] at hrun
          exact ih rest { c0 with displayTime := m } c hlen1 hrest hrun
      rw [if_neg h8] at hrun
      by_cases h9 : arg = "--transparent"
      · exact absurd h9.symm harg
      rw [if_neg h9] at hrun
      exact ih (val :: rest) c0 c hlen2 hno2 hrun

/-- C10: `parseArgs` on `[prog, "--transparent", v]` returns a `Config` whose
`transparent` is true exactly when `v` is `"true"`, `"1"` or `"yes"`, every
other member keeping its default; and whenever `parseArgs` returns a
`Config` for an argument vector without `--transparent`, its `transparent`
is the default `true` (`[prog]` is such a vector and gives the defaults). -/
theorem transparent_flag (prog v : String) :
    (∃ c, parseArgs [prog, "--transparent", v] = .config c ∧
      (c.transparent = true ↔ (v = "true" ∨ v = "1" ∨ v = "yes")) ∧
      c.text = "abc" ∧ c.position = "top-right" ∧ c.font = "fixed" ∧ c.fontSize = 12 ∧
      c.marginX = 10 ∧ c.marginY = 20 ∧ c.color = 0xFF0000 ∧ c.displayTime = 30) ∧
    parseArgs [prog] = .config {} ∧
    ({} : Config).transparent = true ∧
    (∀ (argv : List String) (c : Config), "--transparent" ∉ argv →
      parseArgs argv = .config c → c.transparent = true) := by
  refine ⟨⟨{ transparent := decide (v = "true" ∨ v = "1" ∨ v = "yes") }, ?_, ?_,
    rfl, rfl, rfl, rfl, rfl, rfl, rfl, rfl⟩, ?_, rfl, ?_⟩
  · simp [parseArgs, parseLoop]
  · simp
  · simp [parseArgs, parseLoop]
  · intro argv c hno hrun
    have hno2 : "--transparent" ∉ argv.drop 1 := fun hmem => hno (List.mem_of_mem_drop hmem)
    exact parseLoop_keeps_transparent _ _ _ c (le_refl _) hno2 hrun

/-- Witness for C10: the argument vector `text_display --text hi` has no
`--transparent`, `parseArgs` returns a `Config` for it, and `transparent` is
true. -/
theorem transparent_flag_witness :
    "--transparent" ∉ ["text_display", "--text", "hi"] ∧
    parseArgs ["text_display", "--text", "hi"] = .config { text := "hi" } ∧
    ({ text := "hi" } : Config).transparent = true :=
  have hno : "--transparent" ∉ ["text_display", "--text", "hi"] := by decide
  have hrun : parseArgs ["text_display", "--text", "hi"] = .config { text := "hi" } := by
    decide
  ⟨hno, hrun,
   (transparent_flag "text_display" "yes").2.2.2 ["text_display", "--text", "hi"]
     { text := "hi" } hno hrun⟩

end TextDisplay
